import Mathlib

/-!
Verification development for the interactive tilt-card widget
(`src/App.tsx`).  The browser-side handlers are embedded shallowly:
coordinates and angles are rationals, React state updates are explicit
state-passing, event listeners become a small step machine over event
lists.  Each definition is translated from the corresponding source
function and keeps its name where possible.
-/

namespace RovCard

/-! ## Image picker (`ImagePicker`, src/App.tsx lines 21-55) -/

/-- A user-offered file: only the mime-type string matters to the picker. -/
structure PickFile where
  mime : String
deriving DecidableEq, Repr

/-- Character-list version of JavaScript `String.prototype.startsWith`:
`strStartsWith s pat` is true when `pat` is an initial segment of `s`. -/
def strStartsWith : List Char → List Char → Bool
  | _, [] => true
  | [], _ :: _ => false
  | c :: cs, p :: ps => c == p && strStartsWith cs ps

/-- The `onDrop` handler (lines 29-33): takes `e.dataTransfer.files` as a
list, looks at the first entry, and calls `onPick` (modelled as replacing
the current selection) only when the mime-type starts with `"image/"`. -/
def onDrop (files : List PickFile) (sel : Option PickFile) : Option PickFile :=
  match files.head? with
  | some f => if strStartsWith f.mime.data ("image/".data) then some f else sel
  | none => sel

/-- The hidden file-input `onChange` handler (lines 43-46): takes
`e.target.files` as a list and calls `onPick` on the first entry whenever
one is present, with no mime check in the handler itself. -/
def onChange (files : List PickFile) (sel : Option PickFile) : Option PickFile :=
  match files.head? with
  | some f => some f
  | none => sel

/-! ## Tilt signal and card-local pointer/touch handlers
(`InteractiveCard`, src/App.tsx lines 146-182 and 237-243) -/

/-- The pair of framer-motion values `mx`, `my` holding the raw tilt
signal. -/
structure TiltState where
  mx : ℚ
  my : ℚ
deriving DecidableEq, Repr

/-- A DOM bounding rectangle as returned by `getBoundingClientRect`. -/
structure Bounds where
  left : ℚ
  top : ℚ
  width : ℚ
  height : ℚ
deriving DecidableEq, Repr

/-- `handlePointerMove` (lines 146-153): when the container has a
bounding box, map the client coordinates into `0..1` box-relative
coordinates and write `px*2-1`, `py*2-1` into the signal; with no
bounding box the handler returns without touching the signal. -/
def handlePointerMove (bounds : Option Bounds) (clientX clientY : ℚ)
    (s : TiltState) : TiltState :=
  match bounds with
  | none => s
  | some b =>
    let px := (clientX - b.left) / b.width
    let py := (clientY - b.top) / b.height
    { mx := px * 2 - 1, my := py * 2 - 1 }

/-- `resetTilt` (lines 154-156): force the signal to the origin. -/
def resetTilt (_ : TiltState) : TiltState :=
  { mx := 0, my := 0 }

/-- `handleTouchMove` (lines 164-177): read the first touch point; when
it and the container bounds exist, apply the same box-relative mapping as
the pointer handler; otherwise leave the signal alone. -/
def handleTouchMove (touch : Option (ℚ × ℚ)) (bounds : Option Bounds)
    (s : TiltState) : TiltState :=
  match touch, bounds with
  | some t, some b =>
    let px := (t.1 - b.left) / b.width
    let py := (t.2 - b.top) / b.height
    { mx := px * 2 - 1, my := py * 2 - 1 }
  | _, _ => s

/-- The card-local events wired on the container element
(lines 237-243). -/
inductive CardEvent where
  | pointerMove (clientX clientY : ℚ)
  | pointerLeave
  | pointerCancel
  | pointerUp
  | touchStart
  | touchMove (touch : Option (ℚ × ℚ))
  | touchEnd
deriving DecidableEq, Repr

/-- Dispatch of one card-local event to its handler, exactly as the JSX
props wire them: `onPointerMove=handlePointerMove`,
`onPointerLeave/Cancel/Up=resetTilt`, `onTouchStart` only prevents
default, `onTouchMove=handleTouchMove`, `onTouchEnd=resetTilt`. -/
def cardStep (bounds : Option Bounds) (e : CardEvent) (s : TiltState) :
    TiltState :=
  match e with
  | .pointerMove cx cy => handlePointerMove bounds cx cy s
  | .pointerLeave => resetTilt s
  | .pointerCancel => resetTilt s
  | .pointerUp => resetTilt s
  | .touchStart => s
  | .touchMove t => handleTouchMove t bounds s
  | .touchEnd => resetTilt s

/-! ## Device orientation (`onDeviceOrientation`, src/App.tsx
lines 186-205) -/

/-- A stored device-orientation reading (`initialOrientation.current`). -/
structure Orientation where
  beta : ℚ
  gamma : ℚ
deriving DecidableEq, Repr

/-- The baseline reference cell together with the tilt signal the
orientation handler writes to. -/
structure OrientState where
  baseline : Option Orientation
  tilt : TiltState
deriving DecidableEq, Repr

/-- `Math.max(-45, Math.min(45, x))` from lines 200-201. -/
def clamp45 (x : ℚ) : ℚ :=
  max (-45) (min 45 x)

/-- `onDeviceOrientation` (lines 186-205): ignore events with null
`beta`/`gamma`; on the first non-null reading store the baseline and
leave the signal untouched; afterwards write the clamped deltas divided
by 45 into the signal (`mx` from gamma, `my` from beta). -/
def onDeviceOrientation (beta gamma : Option ℚ) (s : OrientState) :
    OrientState :=
  match beta, gamma with
  | some b, some g =>
    match s.baseline with
    | none => { s with baseline := some { beta := b, gamma := g } }
    | some init =>
      let deltaGamma := g - init.gamma
      let deltaBeta := b - init.beta
      let gc := clamp45 deltaGamma
      let bc := clamp45 deltaBeta
      { s with tilt := { mx := gc / 45, my := bc / 45 } }
  | _, _ => s

/-! ## Window-level listener machine (the `useEffect` at src/App.tsx
lines 185-230): arming on `pointerdown`, a once-only `pointermove`
listener that attaches `deviceorientation`, and the orientation handler
itself. -/

/-- Snapshot of the listener wiring and the cells it works on, right
after the effect body has run: the `arm` pointerdown listener is
attached, `armed` is false, the once-only pointermove `listener` is
attached, the `deviceorientation` listener is not, the baseline is null
and the tilt signal starts at the origin. -/
structure ArmState where
  armListenerAttached : Bool
  armed : Bool
  moveListenerAttached : Bool
  orientationAttached : Bool
  baseline : Option Orientation
  tilt : TiltState
deriving DecidableEq, Repr

/-- State at effect mount (lines 207-224). -/
def initArmState : ArmState :=
  { armListenerAttached := true
    armed := false
    moveListenerAttached := true
    orientationAttached := false
    baseline := none
    tilt := { mx := 0, my := 0 } }

/-- The window-level events the effect listens for.  An orientation
event carries nullable `beta` and `gamma`. -/
inductive WindowEvent where
  | pointerDown
  | pointerMove
  | orientation (beta gamma : Option ℚ)
deriving DecidableEq, Repr

/-- One window event, dispatched as the listeners are wired:
`arm` (lines 212-216) runs on `pointerdown` while attached, sets `armed`,
clears the baseline and removes itself; `listener` (lines 219-224) was
added with `once: true`, so the first `pointermove` always consumes it
and attaches `deviceorientation` only if already armed;
`onDeviceOrientation` runs only while attached. -/
def windowStep (s : ArmState) (e : WindowEvent) : ArmState :=
  match e with
  | .pointerDown =>
    if s.armListenerAttached then
      { s with armed := true, baseline := none, armListenerAttached := false }
    else s
  | .pointerMove =>
    if s.moveListenerAttached then
      if s.armed then
        { s with moveListenerAttached := false, orientationAttached := true }
      else
        { s with moveListenerAttached := false }
    else s
  | .orientation b g =>
    if s.orientationAttached then
      let o := onDeviceOrientation b g { baseline := s.baseline, tilt := s.tilt }
      { s with baseline := o.baseline, tilt := o.tilt }
    else s

/-- Run a list of window events from a state. -/
def windowRun (s : ArmState) : List WindowEvent → ArmState
  | [] => s
  | e :: es => windowRun (windowStep s e) es

/-- `hasDownMove sd tr` is true when the trace `tr` contains a
`pointerMove` preceded (in `tr`, or already before it when `sd` is true)
by a `pointerDown`. -/
def hasDownMove : Bool → List WindowEvent → Bool
  | _, [] => false
  | seenDown, e :: es =>
    match e with
    | .pointerDown => hasDownMove true es
    | .pointerMove => seenDown || hasDownMove seenDown es
    | .orientation _ _ => hasDownMove seenDown es

/-! ## Transform/glare renderer (src/App.tsx lines 108-143 and
288-300) -/

/-- The values the render layer derives from the smoothed signal:
rotation angles in degrees (`rotX`, `rotY`, lines 108-109), the shine
focal point in percent (`shineX`, `shineY`, lines 142-143), and the glare
overlay, present only when `glare` is enabled (line 289), carrying its
focal point. -/
structure RenderOutput where
  rotXdeg : ℚ
  rotYdeg : ℚ
  shineXpct : ℚ
  shineYpct : ℚ
  glareLayer : Option (ℚ × ℚ)
deriving DecidableEq, Repr

/-- The renderer as a pure function of the smoothed signal, the live
intensity and the glare flag. -/
def render (smx smy intensity : ℚ) (glare : Bool) : RenderOutput :=
  { rotXdeg := -smy * intensity
    rotYdeg := smx * intensity
    shineXpct := (smx + 1) * 50
    shineYpct := (1 - (smy + 1) / 2) * 100
    glareLayer :=
      if glare then some ((smx + 1) * 50, (1 - (smy + 1) / 2) * 100)
      else none }

/-! ## Object-URL lifecycle (`useObjectUrl`, src/App.tsx lines 9-18)

React runs the previous effect's cleanup before the next effect body
whenever the `file` dependency changes.  Object URLs are numbered by a
counter; `live` is the list of created-but-not-revoked URLs; `pending`
is the cleanup registered by the last effect run (the URL it would
revoke); `url` is the hook's state value. -/

structure UrlState where
  counter : ℕ
  live : List ℕ
  pending : Option ℕ
  url : Option ℕ
deriving DecidableEq, Repr

/-- Before the first effect run: nothing allocated, no cleanup, no
URL. -/
def urlInit : UrlState :=
  { counter := 0, live := [], pending := none, url := none }

/-- One change of the `file` dependency: first the previous cleanup runs
(revoking the URL it captured, line 15), then the effect body runs: with
no file it sets the URL state to null and registers no cleanup
(line 12); with a file it creates a fresh object URL, stores it and
registers a cleanup for it (lines 13-15). -/
def urlStep (s : UrlState) (file : Option PickFile) : UrlState :=
  let live1 :=
    match s.pending with
    | some u => s.live.erase u
    | none => s.live
  match file with
  | none => { counter := s.counter, live := live1, pending := none, url := none }
  | some _ =>
    { counter := s.counter + 1
      live := live1 ++ [s.counter]
      pending := some s.counter
      url := some s.counter }

/-- Run the hook over the whole history of values taken by `file`. -/
def urlRun (files : List (Option PickFile)) : UrlState :=
  files.foldl urlStep urlInit

/-- The list of object URLs a registered cleanup would still revoke. -/
def pendList : Option ℕ → List ℕ
  | some u => [u]
  | none => []

/-! ## App-level state and the toolbar buttons (`App`, src/App.tsx
lines 310-331) -/

/-- The four `useState` cells of `App`. -/
structure AppState where
  file : Option PickFile
  intensity : ℚ
  glare : Bool
  dragEnabled : Bool
deriving DecidableEq, Repr

/-- The "Reset" button handler (line 323): `setFile(null)`. -/
def resetClick (s : AppState) : AppState :=
  { s with file := none }

/-- The "Defaults" button handler (lines 326-328): `setIntensity(30);
setGlare(true)`. -/
def defaultsClick (s : AppState) : AppState :=
  { s with intensity := 30, glare := true }

/-! ## Shared helper lemmas -/

/-- A coordinate inside a segment of positive length maps into `[-1, 1]`
under the box-relative `(x - lo)/len * 2 - 1` formula. -/
theorem unit_box_component (lo len x : ℚ) (hlen : 0 < len)
    (h1 : lo ≤ x) (h2 : x ≤ lo + len) :
    -1 ≤ (x - lo) / len * 2 - 1 ∧ (x - lo) / len * 2 - 1 ≤ 1 := by
  have h0 : 0 ≤ (x - lo) / len := div_nonneg (by linarith) hlen.le
  have h1' : (x - lo) / len ≤ 1 := by
    rw [div_le_one hlen]; linarith
  constructor <;> linarith

/-- A clamped delta divided by 45 lies in `[-1, 1]`. -/
theorem clamp45_div_range (x : ℚ) :
    -1 ≤ clamp45 x / 45 ∧ clamp45 x / 45 ≤ 1 := by
  unfold clamp45
  constructor
  · rw [le_div_iff₀ (by norm_num : (0:ℚ) < 45)]
    have h : (-45 : ℚ) ≤ max (-45) (min 45 x) := le_max_left _ _
    linarith
  · rw [div_le_one (by norm_num : (0:ℚ) < 45)]
    exact max_le (by norm_num) (min_le_left _ _)

/-- Orientation handler, baseline-empty case: the reading becomes the
baseline and the tilt signal is untouched. -/
theorem onDeviceOrientation_none (s : OrientState) (b g : ℚ)
    (h : s.baseline = none) :
    onDeviceOrientation (some b) (some g) s =
      { baseline := some { beta := b, gamma := g }, tilt := s.tilt } := by
  simp [onDeviceOrientation, h]

/-- Orientation handler, baseline-present case: the signal becomes the
clamped deltas divided by 45 and the baseline is kept. -/
theorem onDeviceOrientation_some (s : OrientState) (b g : ℚ)
    (init : Orientation) (h : s.baseline = some init) :
    onDeviceOrientation (some b) (some g) s =
      { baseline := some init,
        tilt := { mx := clamp45 (g - init.gamma) / 45,
                  my := clamp45 (b - init.beta) / 45 } } := by
  simp [onDeviceOrientation, h]

/-- One `urlStep` preserves the lifecycle invariant: the live object
URLs are exactly the ones the registered cleanup would revoke. -/
theorem urlStep_inv (s : UrlState) (f : Option PickFile)
    (h : s.live = pendList s.pending) :
    (urlStep s f).live = pendList (urlStep s f).pending := by
  cases f <;> cases hp : s.pending <;> simp [urlStep, pendList, h, hp]

/-- The lifecycle invariant holds in every state reachable from the
mount state. -/
theorem urlRun_inv (files : List (Option PickFile)) :
    (urlRun files).live = pendList (urlRun files).pending := by
  suffices h : ∀ s : UrlState, s.live = pendList s.pending →
      (files.foldl urlStep s).live = pendList (files.foldl urlStep s).pending by
    exact h urlInit rfl
  induction files with
  | nil => exact fun s hs => hs
  | cons f fs ih => exact fun s hs => ih _ (urlStep_inv s f hs)

/-- Inductive core for the arming state machine: as long as the trace
contains no `pointerDown` followed (anywhere later) by a `pointerMove`,
the `deviceorientation` listener stays unattached and the tilt signal
stays at the origin. -/
theorem windowRun_no_downmove (tr : List WindowEvent) :
    ∀ (sd : Bool) (s : ArmState),
      hasDownMove sd tr = false →
      s.orientationAttached = false →
      s.tilt = { mx := 0, my := 0 } →
      (s.armed = true → sd = true) →
      (windowRun s tr).orientationAttached = false ∧
      (windowRun s tr).tilt = { mx := 0, my := 0 } := by
  induction tr with
  | nil => exact fun sd s _ h2 h3 _ => ⟨h2, h3⟩
  | cons e es ih =>
    intro sd s h1 h2 h3 h4
    rw [windowRun]
    cases e with
    | pointerDown =>
      have h1' : hasDownMove true es = false := h1
      apply ih true _ h1'
      · cases hA : s.armListenerAttached <;> simp [windowStep, hA, h2]
      · cases hA : s.armListenerAttached <;> simp [windowStep, hA, h3]
      · intro _; rfl
    | pointerMove =>
      have hsd : sd = false ∧ hasDownMove sd es = false := by
        have h := h1
        simp [hasDownMove] at h
        exact h
      have harm : s.armed = false := by
        cases ha : s.armed
        · rfl
        · exact absurd (h4 ha) (by simp [hsd.1])
      apply ih sd _ hsd.2
      · cases hM : s.moveListenerAttached <;> simp [windowStep, hM, harm, h2]
      · cases hM : s.moveListenerAttached <;> simp [windowStep, hM, harm, h3]
      · cases hM : s.moveListenerAttached <;> simp [windowStep, hM, harm]
    | orientation b g =>
      have h1' : hasDownMove sd es = false := h1
      apply ih sd _ h1'
      · simp [windowStep, h2]
      · simp [windowStep, h2, h3]
      · simp [windowStep, h2]; exact h4

/-! ## Claim theorems -/

/-- C1 counterexample: the hidden file-browse input's `onChange` handler
forwards a file whose mime-type is `"text/plain"`, which does not start
with `"image/"`; the claim says such a file is ignored on every picker
path. -/
theorem onChange_forwards_nonimage :
    onChange [{ mime := "text/plain" }] none = some { mime := "text/plain" } ∧
    strStartsWith ("text/plain".data) ("image/".data) = false :=
  ⟨rfl, by decide⟩

/-- C1 (amended): a dropped file is forwarded to `onPick` exactly when
its mime-type starts with `"image/"` (otherwise the selection is left
unchanged), while a file chosen through the hidden browse input is
forwarded whenever one is present, with no mime check in the handler;
an empty file list leaves the selection unchanged on both paths. -/
theorem picker_accept_paths (f : PickFile) (sel : Option PickFile) :
    (strStartsWith f.mime.data ("image/".data) = true →
      onDrop [f] sel = some f) ∧
    (strStartsWith f.mime.data ("image/".data) = false →
      onDrop [f] sel = sel) ∧
    onDrop [] sel = sel ∧
    onChange [f] sel = some f ∧
    onChange [] sel = sel := by
  refine ⟨fun h => ?_, fun h => ?_, rfl, rfl, rfl⟩ <;> simp [onDrop, h]

/-- Witness for `picker_accept_paths` at mime-types `"image/png"` and
`"text/plain"`. -/
theorem picker_accept_paths_witness :
    onDrop [{ mime := "image/png" }] none = some { mime := "image/png" } ∧
    onDrop [{ mime := "text/plain" }] none = none ∧
    onChange [{ mime := "text/plain" }] none = some { mime := "text/plain" } :=
  ⟨(picker_accept_paths { mime := "image/png" } none).1 (by decide),
   (picker_accept_paths { mime := "text/plain" } none).2.1 (by decide),
   (picker_accept_paths { mime := "text/plain" } none).2.2.2.1⟩

/-- C2: for a pointer-move inside the card's bounding box (positive
width and height), the handler writes exactly
`((clientX-left)/width*2-1, (clientY-top)/height*2-1)`, both components
lie in `[-1, 1]`, the top-left corner maps to `(-1, -1)` and the
bottom-right corner maps to `(1, 1)`. -/
theorem pointerMove_maps_bounds (b : Bounds) (cx cy : ℚ) (s : TiltState)
    (hw : 0 < b.width) (hh : 0 < b.height)
    (hx1 : b.left ≤ cx) (hx2 : cx ≤ b.left + b.width)
    (hy1 : b.top ≤ cy) (hy2 : cy ≤ b.top + b.height) :
    handlePointerMove (some b) cx cy s =
      { mx := (cx - b.left) / b.width * 2 - 1
        my := (cy - b.top) / b.height * 2 - 1 } ∧
    (-1 ≤ (cx - b.left) / b.width * 2 - 1 ∧
      (cx - b.left) / b.width * 2 - 1 ≤ 1) ∧
    (-1 ≤ (cy - b.top) / b.height * 2 - 1 ∧
      (cy - b.top) / b.height * 2 - 1 ≤ 1) ∧
    handlePointerMove (some b) b.left b.top s = { mx := -1, my := -1 } ∧
    handlePointerMove (some b) (b.left + b.width) (b.top + b.height) s =
      { mx := 1, my := 1 } := by
  have hwne : b.width ≠ 0 := ne_of_gt hw
  have hhne : b.height ≠ 0 := ne_of_gt hh
  refine ⟨rfl, unit_box_component b.left b.width cx hw hx1 hx2,
          unit_box_component b.top b.height cy hh hy1 hy2, ?_, ?_⟩
  · simp [handlePointerMove, TiltState.mk.injEq]
  · simp [handlePointerMove, TiltState.mk.injEq]
    constructor <;> · field_simp; norm_num

/-- Witness for `pointerMove_maps_bounds` on the box at `(0,0)` of
size `2 × 2` with the pointer at `(1, 2)`. -/
theorem pointerMove_maps_bounds_witness :
    handlePointerMove (some { left := 0, top := 0, width := 2, height := 2 })
        1 2 { mx := 0, my := 0 } =
      { mx := (1 - 0) / 2 * 2 - 1, my := (2 - 0) / 2 * 2 - 1 } :=
  (pointerMove_maps_bounds { left := 0, top := 0, width := 2, height := 2 }
      1 2 { mx := 0, my := 0 } (by norm_num) (by norm_num) (by norm_num)
      (by norm_num) (by norm_num) (by norm_num)).1

/-- C3: each of the four exit events wired on the card (pointer-leave,
pointer-cancel, pointer-up, touch-end) forces the raw tilt signal to
exactly `(0, 0)` from any prior state, whatever bounding box is
current. -/
theorem reset_events_zero_signal (bounds : Option Bounds) (s : TiltState) :
    cardStep bounds CardEvent.pointerLeave s = { mx := 0, my := 0 } ∧
    cardStep bounds CardEvent.pointerCancel s = { mx := 0, my := 0 } ∧
    cardStep bounds CardEvent.pointerUp s = { mx := 0, my := 0 } ∧
    cardStep bounds CardEvent.touchEnd s = { mx := 0, my := 0 } :=
  ⟨rfl, rfl, rfl, rfl⟩

/-- C4: a device-orientation event with non-null beta and gamma stores
the reading as baseline and leaves the signal unchanged when no baseline
is held; once a baseline is held, the event writes the clamped deltas
divided by 45 (`mx` from gamma, `my` from beta); a 90-degree delta
normalizes to exactly 1. -/
theorem deviceOrientation_baseline_then_clamped (s : OrientState) (b g : ℚ)
    (init : Orientation) :
    (s.baseline = none →
      onDeviceOrientation (some b) (some g) s =
        { baseline := some { beta := b, gamma := g }, tilt := s.tilt }) ∧
    (s.baseline = some init →
      onDeviceOrientation (some b) (some g) s =
        { baseline := some init,
          tilt := { mx := clamp45 (g - init.gamma) / 45,
                    my := clamp45 (b - init.beta) / 45 } }) ∧
    clamp45 90 / 45 = 1 := by
  refine ⟨fun h => onDeviceOrientation_none s b g h,
          fun h => onDeviceOrientation_some s b g init h, ?_⟩
  norm_num [clamp45]

/-- Witness for `deviceOrientation_baseline_then_clamped`: first reading
`(10, 20)` establishes the baseline without tilting; a later reading
`(100, 5)` yields the clamped normalized deltas. -/
theorem deviceOrientation_baseline_then_clamped_witness :
    onDeviceOrientation (some 10) (some 20)
        { baseline := none, tilt := { mx := 0, my := 0 } } =
      { baseline := some { beta := 10, gamma := 20 },
        tilt := { mx := 0, my := 0 } } ∧
    onDeviceOrientation (some 100) (some 5)
        { baseline := some { beta := 10, gamma := 20 },
          tilt := { mx := 0, my := 0 } } =
      { baseline := some { beta := 10, gamma := 20 },
        tilt := { mx := clamp45 (5 - 20) / 45,
                  my := clamp45 (100 - 10) / 45 } } :=
  ⟨(deviceOrientation_baseline_then_clamped
      { baseline := none, tilt := { mx := 0, my := 0 } } 10 20
      { beta := 10, gamma := 20 }).1 rfl,
   (deviceOrientation_baseline_then_clamped
      { baseline := some { beta := 10, gamma := 20 },
        tilt := { mx := 0, my := 0 } } 100 5
      { beta := 10, gamma := 20 }).2.1 rfl⟩

/-- C5: for any smoothed signal and any intensity in `[6, 35]`, the
renderer derives rotation-X `= -smy*intensity` degrees, rotation-Y
`= smx*intensity` degrees, shine focus `x% = (smx+1)*50`,
`y% = (1-(smy+1)/2)*100`, renders the glare overlay exactly when glare
is enabled, and at smoothed signal `(1, 1)` the rotations are
`-intensity` and `intensity` degrees. -/
theorem render_derivation (smx smy i : ℚ) (g : Bool)
    (h1 : 6 ≤ i) (h2 : i ≤ 35) :
    (render smx smy i g).rotXdeg = -smy * i ∧
    (render smx smy i g).rotYdeg = smx * i ∧
    (render smx smy i g).shineXpct = (smx + 1) * 50 ∧
    (render smx smy i g).shineYpct = (1 - (smy + 1) / 2) * 100 ∧
    (render smx smy i g).glareLayer.isSome = g ∧
    ((render smx smy i g).glareLayer =
      if g then some ((smx + 1) * 50, (1 - (smy + 1) / 2) * 100) else none) ∧
    (render 1 1 i g).rotXdeg = -i ∧
    (render 1 1 i g).rotYdeg = i := by
  refine ⟨rfl, rfl, rfl, rfl, ?_, rfl, ?_, ?_⟩
  · cases g <;> rfl
  · show (-1 : ℚ) * i = -i; ring
  · show (1 : ℚ) * i = i; ring

/-- Witness for `render_derivation` at smoothed signal `(1, 1)`,
intensity 30, glare on. -/
theorem render_derivation_witness :
    (render 1 1 30 true).rotXdeg = -30 ∧
    (render 1 1 30 true).rotYdeg = 30 ∧
    (render 1 1 30 true).glareLayer.isSome = true :=
  ⟨(render_derivation 1 1 30 true (by norm_num) (by norm_num)).2.2.2.2.2.2.1,
   (render_derivation 1 1 30 true (by norm_num) (by norm_num)).2.2.2.2.2.2.2,
   (render_derivation 1 1 30 true (by norm_num) (by norm_num)).2.2.2.2.1⟩

/-- C6: over any history of values of the file handle, at most one
object URL is ever live; ending the history with a null handle leaves no
live URL; and a new pick revokes the old URL as the new one is created,
leaving exactly the fresh URL live. -/
theorem objectUrl_single_live (files : List (Option PickFile)) (f : PickFile) :
    (urlRun files).live.length ≤ 1 ∧
    (urlRun (files ++ [none])).live = [] ∧
    (urlStep (urlRun files) (some f)).live = [(urlRun files).counter] := by
  have hinv := urlRun_inv files
  refine ⟨?_, ?_, ?_⟩
  · rw [hinv]; cases (urlRun files).pending <;> simp [pendList]
  · have happ : urlRun (files ++ [none]) = urlStep (urlRun files) none := by
      simp [urlRun, List.foldl_append]
    rw [happ]
    cases hp : (urlRun files).pending <;>
      simp [urlStep, hp, hinv, pendList]
  · cases hp : (urlRun files).pending <;>
      simp [urlStep, hp, hinv, pendList]

/-- C7 counterexample: a pointer-move at `clientX = 300` over the box at
`(0,0)` of size `100 × 100` writes `mx = 5`, outside `[-1, 1]`; the
claim says the signal stays in `[-1, 1]` even for coordinates outside
the bounding box. -/
theorem pointerMove_out_of_bounds_escapes :
    (handlePointerMove (some { left := 0, top := 0, width := 100, height := 100 })
        300 50 { mx := 0, my := 0 }).mx = 5 ∧
    ¬ ((5 : ℚ) ≤ 1) := by
  constructor
  · show (300 - 0 : ℚ) / 100 * 2 - 1 = 5
    norm_num
  · norm_num

/-- C7 (amended): the raw tilt signal components lie in `[-1, 1]` for
every device-orientation write (the deltas are clamped) and for every
pointer-move or touch-move whose coordinates lie within the card's
bounding box; pointer/touch coordinates outside the box are not clamped
and can write values outside `[-1, 1]`. -/
theorem signal_range_amended (s : OrientState) (db dg : ℚ)
    (init : Orientation) (b : Bounds) (cx cy : ℚ) (t : TiltState)
    (hbl : s.baseline = some init)
    (hw : 0 < b.width) (hh : 0 < b.height)
    (hx1 : b.left ≤ cx) (hx2 : cx ≤ b.left + b.width)
    (hy1 : b.top ≤ cy) (hy2 : cy ≤ b.top + b.height) :
    (-1 ≤ (onDeviceOrientation (some db) (some dg) s).tilt.mx ∧
      (onDeviceOrientation (some db) (some dg) s).tilt.mx ≤ 1 ∧
      -1 ≤ (onDeviceOrientation (some db) (some dg) s).tilt.my ∧
      (onDeviceOrientation (some db) (some dg) s).tilt.my ≤ 1) ∧
    (-1 ≤ (handlePointerMove (some b) cx cy t).mx ∧
      (handlePointerMove (some b) cx cy t).mx ≤ 1 ∧
      -1 ≤ (handlePointerMove (some b) cx cy t).my ∧
      (handlePointerMove (some b) cx cy t).my ≤ 1) ∧
    (-1 ≤ (handleTouchMove (some (cx, cy)) (some b) t).mx ∧
      (handleTouchMove (some (cx, cy)) (some b) t).mx ≤ 1 ∧
      -1 ≤ (handleTouchMove (some (cx, cy)) (some b) t).my ∧
      (handleTouchMove (some (cx, cy)) (some b) t).my ≤ 1) := by
  have hx := unit_box_component b.left b.width cx hw hx1 hx2
  have hy := unit_box_component b.top b.height cy hh hy1 hy2
  have hcg := clamp45_div_range (dg - init.gamma)
  have hcb := clamp45_div_range (db - init.beta)
  rw [onDeviceOrientation_some s db dg init hbl]
  exact ⟨⟨hcg.1, hcg.2, hcb.1, hcb.2⟩,
         ⟨hx.1, hx.2, hy.1, hy.2⟩,
         ⟨hx.1, hx.2, hy.1, hy.2⟩⟩

/-- Witness for `signal_range_amended`: a 90-degree orientation delta
from baseline `(0, 0)` and a pointer at `(1, 1)` inside the `2 × 2` box
at the origin. -/
theorem signal_range_amended_witness :
    (-1 ≤ (onDeviceOrientation (some 90) (some 90)
        { baseline := some { beta := 0, gamma := 0 },
          tilt := { mx := 0, my := 0 } }).tilt.mx ∧
      (onDeviceOrientation (some 90) (some 90)
        { baseline := some { beta := 0, gamma := 0 },
          tilt := { mx := 0, my := 0 } }).tilt.mx ≤ 1) ∧
    -1 ≤ (handlePointerMove
        (some { left := 0, top := 0, width := 2, height := 2 }) 1 1
        { mx := 0, my := 0 }).mx :=
  ⟨⟨(signal_range_amended
        { baseline := some { beta := 0, gamma := 0 },
          tilt := { mx := 0, my := 0 } } 90 90 { beta := 0, gamma := 0 }
        { left := 0, top := 0, width := 2, height := 2 } 1 1
        { mx := 0, my := 0 } rfl (by norm_num) (by norm_num) (by norm_num)
        (by norm_num) (by norm_num) (by norm_num)).1.1,
    (signal_range_amended
        { baseline := some { beta := 0, gamma := 0 },
          tilt := { mx := 0, my := 0 } } 90 90 { beta := 0, gamma := 0 }
        { left := 0, top := 0, width := 2, height := 2 } 1 1
        { mx := 0, my := 0 } rfl (by norm_num) (by norm_num) (by norm_num)
        (by norm_num) (by norm_num) (by norm_num)).1.2.1⟩,
   (signal_range_amended
        { baseline := some { beta := 0, gamma := 0 },
          tilt := { mx := 0, my := 0 } } 90 90 { beta := 0, gamma := 0 }
        { left := 0, top := 0, width := 2, height := 2 } 1 1
        { mx := 0, my := 0 } rfl (by norm_num) (by norm_num) (by norm_num)
        (by norm_num) (by norm_num) (by norm_num)).2.1.1⟩

/-- C8 counterexample: after the first pointer-down armed the machine
(removing the `arm` listener), a pointer-move attached orientation input
and an orientation reading `(5, 7)` established a baseline, a second
pointer-down leaves that baseline in place — it is not cleared to null
as the claim says every pointer-down does. -/
theorem second_pointerDown_keeps_baseline :
    (windowRun initArmState
      [WindowEvent.pointerDown, WindowEvent.pointerMove,
       WindowEvent.orientation (some 5) (some 7),
       WindowEvent.pointerDown]).baseline = some { beta := 5, gamma := 7 } ∧
    (windowRun initArmState
      [WindowEvent.pointerDown, WindowEvent.pointerMove,
       WindowEvent.orientation (some 5) (some 7),
       WindowEvent.pointerDown]).baseline ≠ none := by
  constructor
  · rfl
  · intro h
    simp [windowRun, windowStep, initArmState, onDeviceOrientation] at h

/-- C8 (amended): only the first pointer-down re-arms the
device-orientation baseline: while the `arm` listener is attached, a
pointer-down sets `armed`, clears the baseline to null and removes the
listener; once the listener is removed, a pointer-down changes nothing,
so later pointer-downs never clear the baseline. -/
theorem arm_only_first_pointerDown (s s2 : ArmState)
    (h : s.armListenerAttached = true)
    (h2 : s2.armListenerAttached = false) :
    windowStep s WindowEvent.pointerDown =
      { s with armed := true, baseline := none,
               armListenerAttached := false } ∧
    (windowStep s WindowEvent.pointerDown).armListenerAttached = false ∧
    windowStep s2 WindowEvent.pointerDown = s2 := by
  refine ⟨?_, ?_, ?_⟩ <;> simp [windowStep, h, h2]

/-- Witness for `arm_only_first_pointerDown`: the mount state and the
state right after the first pointer-down. -/
theorem arm_only_first_pointerDown_witness :
    windowStep (windowStep initArmState WindowEvent.pointerDown)
        WindowEvent.pointerDown =
      windowStep initArmState WindowEvent.pointerDown :=
  (arm_only_first_pointerDown initArmState
      (windowStep initArmState WindowEvent.pointerDown) rfl rfl).2.2

/-- C9: the "Defaults" button sets intensity to 30 and glare to true,
leaving the drag flag and the selected file unchanged; the "Reset"
button clears the selected file only, leaving intensity, glare and the
drag flag unchanged. -/
theorem toolbar_buttons_effect (s : AppState) :
    (defaultsClick s).intensity = 30 ∧
    (defaultsClick s).glare = true ∧
    (defaultsClick s).dragEnabled = s.dragEnabled ∧
    (defaultsClick s).file = s.file ∧
    (resetClick s).file = none ∧
    (resetClick s).intensity = s.intensity ∧
    (resetClick s).glare = s.glare ∧
    (resetClick s).dragEnabled = s.dragEnabled :=
  ⟨rfl, rfl, rfl, rfl, rfl, rfl, rfl, rfl⟩

/-- C10: over any trace of window events containing no pointer-down
followed later by a pointer-move, the `deviceorientation` listener is
never attached and orientation events never move the tilt signal off the
origin; a pointer-down alone leaves orientation unattached, while
pointer-down followed by pointer-move attaches it. -/
theorem orientation_needs_down_then_move (tr : List WindowEvent)
    (h : hasDownMove false tr = false) :
    ((windowRun initArmState tr).orientationAttached = false ∧
      (windowRun initArmState tr).tilt = { mx := 0, my := 0 }) ∧
    (windowRun initArmState [WindowEvent.pointerDown]).orientationAttached
      = false ∧
    (windowRun initArmState
      [WindowEvent.pointerDown, WindowEvent.pointerMove]).orientationAttached
      = true :=
  ⟨windowRun_no_downmove tr false initArmState h rfl rfl (fun hc => hc),
   rfl, rfl⟩

/-- Witness for `orientation_needs_down_then_move`: a pointer-down
followed by an orientation reading, with no pointer-move, does not
attach the listener and leaves the signal at the origin. -/
theorem orientation_needs_down_then_move_witness :
    (windowRun initArmState
      [WindowEvent.pointerDown,
       WindowEvent.orientation (some 5) (some 5)]).orientationAttached
      = false ∧
    (windowRun initArmState
      [WindowEvent.pointerDown,
       WindowEvent.orientation (some 5) (some 5)]).tilt
      = { mx := 0, my := 0 } :=
  ⟨(orientation_needs_down_then_move
      [WindowEvent.pointerDown, WindowEvent.orientation (some 5) (some 5)]
      rfl).1.1,
   (orientation_needs_down_then_move
      [WindowEvent.pointerDown, WindowEvent.orientation (some 5) (some 5)]
      rfl).1.2⟩

end RovCard
